import Mathlib

/-!
Shallow embedding of `src/photo_bot/infrastructure/config/settings.py`:
the pydantic `Settings` model (field constraints, field validators,
derived properties), the process-wide cached accessor `get_settings`,
`reload_settings`, and the test construction path `get_test_settings`.

Environment/field values are modelled after pydantic has resolved the raw
environment: a `SettingsInput` record holds the value each field receives
(an `Option` for fields that may be absent).  Construction collects the
per-field validation errors, in field declaration order, exactly as
pydantic does, and yields the validated record only when no error occurred.
-/

namespace PhotoBot

/-- Resolved raw field values handed to `Settings.__init__`.  The defaults
mirror the `Field(default=...)` declarations in `settings.py`; required
fields (`default=...` i.e. Ellipsis in pydantic) are `Option`s whose `none`
means the variable was absent from the environment. -/
structure SettingsInput where
  TELEGRAM_BOT_TOKEN : Option String := none
  PHOTOROOM_API_KEY : Option String := none
  SECRET_TOKEN : String := "my_secret_token_123"
  HOST : String := "127.0.0.1"
  PORT : Int := 8000
  WEBHOOK_URL : Option String := none
  MAX_IMAGE_SIZE_MB : Int := 10
  DEFAULT_IMAGE_QUALITY : Int := 85
  SUPPORTED_FORMATS : List String := ["JPEG", "PNG", "WEBP"]
  REQUEST_TIMEOUT : Int := 30
  SESSION_TTL : Int := 3600
  RATE_LIMIT_PER_MINUTE : Int := 20
  ENABLE_PHOTOROOM : Bool := true
  ENABLE_PILLOW : Bool := true
  DEFAULT_PROCESSOR : String := "photoroom"
  LOG_LEVEL : String := "INFO"
  ENABLE_FILE_LOGGING : Bool := true
deriving Repr, DecidableEq

/-- The validated settings record (`class Settings(BaseSettings)`). -/
structure Settings where
  TELEGRAM_BOT_TOKEN : String
  PHOTOROOM_API_KEY : String
  SECRET_TOKEN : String
  HOST : String
  PORT : Int
  WEBHOOK_URL : Option String
  MAX_IMAGE_SIZE_MB : Int
  DEFAULT_IMAGE_QUALITY : Int
  SUPPORTED_FORMATS : List String
  REQUEST_TIMEOUT : Int
  SESSION_TTL : Int
  RATE_LIMIT_PER_MINUTE : Int
  ENABLE_PHOTOROOM : Bool
  ENABLE_PILLOW : Bool
  DEFAULT_PROCESSOR : String
  LOG_LEVEL : String
  ENABLE_FILE_LOGGING : Bool
deriving Repr, DecidableEq

/-- `Settings.validate_telegram_token`: a missing required field is a
pydantic "field required" error (the validator is then never called);
otherwise the checks `not v or v == 'your_telegram_bot_token_here'` and
`':' not in v or len(v) < 30` are applied in order. -/
def validate_telegram_token (v : Option String) : Except String String :=
  match v with
  | none => .error "field required"
  | some s =>
    if s = "" ∨ s = "your_telegram_bot_token_here" then
      .error "TELEGRAM_BOT_TOKEN не настроен. Проверьте .env файл"
    else if s.toList.contains ':' = false ∨ s.length < 30 then
      .error "Неверный формат TELEGRAM_BOT_TOKEN"
    else .ok s

/-- `Settings.validate_photoroom_key`: required field, rejected when empty
or equal to the placeholder `'your_photoroom_api_key_here'`. -/
def validate_photoroom_key (v : Option String) : Except String String :=
  match v with
  | none => .error "field required"
  | some s =>
    if s = "" ∨ s = "your_photoroom_api_key_here" then
      .error "PHOTOROOM_API_KEY не настроен. Проверьте .env файл"
    else .ok s

/-- Python's `v.startswith(p)`, on the character sequences of the strings. -/
def strStartsWith (s p : String) : Bool :=
  p.toList.isPrefixOf s.toList

/-- `Settings.validate_webhook_url`: `if v and v.startswith('https://yourdomain'):
return None`, i.e. a truthy (non-empty) value starting with the placeholder
domain is normalized to absent; every other value is returned unchanged. -/
def validate_webhook_url (v : Option String) : Option String :=
  match v with
  | none => none
  | some s => if s ≠ "" ∧ strStartsWith s "https://yourdomain" then none else some s

/-- `Settings.validate_default_processor`: fails when the chosen processor's
feature toggle is off.  The toggles are passed in directly: in the source they
are read from `values` (the already-validated sibling fields), and the two
toggle fields are declared before `DEFAULT_PROCESSOR` and always validate. -/
def validate_default_processor (v : String) (enablePhotoroom enablePillow : Bool) :
    Except String String :=
  if v = "photoroom" ∧ enablePhotoroom = false then
    .error "Photoroom отключен, но выбран как процессор по умолчанию"
  else if v = "pillow" ∧ enablePillow = false then
    .error "Pillow отключен, но выбран как процессор по умолчанию"
  else .ok v

/-- Range constraint from a `Field(ge=lo, le=hi)` declaration: the error list
this field contributes, tagged with the field's name. -/
def rangeErrors (name : String) (lo hi v : Int) : List String :=
  if lo ≤ v ∧ v ≤ hi then [] else [name ++ ": ensure value is in the declared range"]

/-- Errors contributed by `TELEGRAM_BOT_TOKEN`. -/
def SettingsInput.tokenErrors (i : SettingsInput) : List String :=
  match validate_telegram_token i.TELEGRAM_BOT_TOKEN with
  | .error m => ["TELEGRAM_BOT_TOKEN: " ++ m]
  | .ok _ => []

/-- Errors contributed by `PHOTOROOM_API_KEY`. -/
def SettingsInput.keyErrors (i : SettingsInput) : List String :=
  match validate_photoroom_key i.PHOTOROOM_API_KEY with
  | .error m => ["PHOTOROOM_API_KEY: " ++ m]
  | .ok _ => []

/-- Errors contributed by `DEFAULT_PROCESSOR`: the declared pattern
`^(photoroom|pillow)$` is checked by pydantic's standard field validation,
and the custom validator runs only when it passes. -/
def SettingsInput.processorErrors (i : SettingsInput) : List String :=
  if i.DEFAULT_PROCESSOR = "photoroom" ∨ i.DEFAULT_PROCESSOR = "pillow" then
    match validate_default_processor i.DEFAULT_PROCESSOR i.ENABLE_PHOTOROOM i.ENABLE_PILLOW with
    | .error m => ["DEFAULT_PROCESSOR: " ++ m]
    | .ok _ => []
  else ["DEFAULT_PROCESSOR: string does not match declared pattern"]

/-- Errors contributed by `LOG_LEVEL` (pattern
`^(DEBUG|INFO|WARNING|ERROR|CRITICAL)$`). -/
def SettingsInput.logErrors (i : SettingsInput) : List String :=
  if i.LOG_LEVEL = "DEBUG" ∨ i.LOG_LEVEL = "INFO" ∨ i.LOG_LEVEL = "WARNING" ∨
      i.LOG_LEVEL = "ERROR" ∨ i.LOG_LEVEL = "CRITICAL" then []
  else ["LOG_LEVEL: string does not match declared pattern"]

/-- All validation errors of a construction attempt, in field declaration
order, as pydantic's `ValidationError` collects them. -/
def SettingsInput.errors (i : SettingsInput) : List String :=
  i.tokenErrors ++ i.keyErrors ++
  rangeErrors "PORT" 1000 65535 i.PORT ++
  rangeErrors "MAX_IMAGE_SIZE_MB" 1 50 i.MAX_IMAGE_SIZE_MB ++
  rangeErrors "DEFAULT_IMAGE_QUALITY" 1 100 i.DEFAULT_IMAGE_QUALITY ++
  rangeErrors "REQUEST_TIMEOUT" 5 120 i.REQUEST_TIMEOUT ++
  rangeErrors "SESSION_TTL" 300 86400 i.SESSION_TTL ++
  rangeErrors "RATE_LIMIT_PER_MINUTE" 1 1000 i.RATE_LIMIT_PER_MINUTE ++
  i.processorErrors ++ i.logErrors

/-- The record produced when every validator passed.  Validators return their
input unchanged, except `validate_webhook_url` which may normalize to `none`;
the `getD ""` on the two required fields is never reached on a successful
construction (they are `some` whenever their validator passed). -/
def Settings.build (i : SettingsInput) : Settings :=
  { TELEGRAM_BOT_TOKEN := i.TELEGRAM_BOT_TOKEN.getD ""
    PHOTOROOM_API_KEY := i.PHOTOROOM_API_KEY.getD ""
    SECRET_TOKEN := i.SECRET_TOKEN
    HOST := i.HOST
    PORT := i.PORT
    WEBHOOK_URL := validate_webhook_url i.WEBHOOK_URL
    MAX_IMAGE_SIZE_MB := i.MAX_IMAGE_SIZE_MB
    DEFAULT_IMAGE_QUALITY := i.DEFAULT_IMAGE_QUALITY
    SUPPORTED_FORMATS := i.SUPPORTED_FORMATS
    REQUEST_TIMEOUT := i.REQUEST_TIMEOUT
    SESSION_TTL := i.SESSION_TTL
    RATE_LIMIT_PER_MINUTE := i.RATE_LIMIT_PER_MINUTE
    ENABLE_PHOTOROOM := i.ENABLE_PHOTOROOM
    ENABLE_PILLOW := i.ENABLE_PILLOW
    DEFAULT_PROCESSOR := i.DEFAULT_PROCESSOR
    LOG_LEVEL := i.LOG_LEVEL
    ENABLE_FILE_LOGGING := i.ENABLE_FILE_LOGGING }

/-- `Settings()` construction: validate every field; raise (return `.error`)
with the collected errors when any validator failed, otherwise produce the
validated instance. -/
def Settings.construct (i : SettingsInput) : Except (List String) Settings :=
  if SettingsInput.errors i = [] then .ok (Settings.build i)
  else .error (SettingsInput.errors i)

/-- `Settings.is_development`: `self.HOST in ['127.0.0.1', 'localhost'] or
self.PORT in [8000, 8080]`. -/
def Settings.is_development (s : Settings) : Bool :=
  (s.HOST == "127.0.0.1" || s.HOST == "localhost") || (s.PORT == 8000 || s.PORT == 8080)

/-- `Settings.is_production`: webhook URL present and not development mode. -/
def Settings.is_production (s : Settings) : Bool :=
  s.WEBHOOK_URL.isSome && ! s.is_development

/-- `Settings.max_image_size_bytes`: `self.MAX_IMAGE_SIZE_MB * 1024 * 1024`. -/
def Settings.max_image_size_bytes (s : Settings) : Int :=
  s.MAX_IMAGE_SIZE_MB * 1024 * 1024

/-- `Settings.webhook_enabled`: `self.WEBHOOK_URL is not None and
self.is_production`. -/
def Settings.webhook_enabled (s : Settings) : Bool :=
  s.WEBHOOK_URL.isSome && s.is_production

/-- `get_settings`, with the module-global `_settings_instance` made an
explicit state argument and the current environment an explicit input:
returns the cached instance when one is set; otherwise constructs, caching
only on success (`_settings_instance = Settings()` never executes when the
constructor raises) and re-raising the failure to the caller. -/
def get_settings (cache : Option Settings) (env : SettingsInput) :
    Except (List String) Settings × Option Settings :=
  match cache with
  | some s => (.ok s, some s)
  | none =>
    match Settings.construct env with
    | .ok s => (.ok s, some s)
    | .error e => (.error e, none)

/-- `reload_settings`: sets `_settings_instance = None`, then calls
`get_settings()` against the then-current environment. -/
def reload_settings (_cache : Option Settings) (env : SettingsInput) :
    Except (List String) Settings × Option Settings :=
  get_settings none env

/-- `get_test_settings`: `return TestSettings()` — a fresh construction from
the `.env.test` source (`envTest`), threading the module-global cache through
untouched (the function neither reads nor assigns `_settings_instance`). -/
def get_test_settings (cache : Option Settings) (envTest : SettingsInput) :
    Except (List String) Settings × Option Settings :=
  (Settings.construct envTest, cache)

/-! Concrete environments used to exercise the theorems. -/

/-- Example bot token from the source's `Field(example=...)`. -/
def exampleToken : String := "1234567890:ABCDEFGHIJKLMNOPQRSTUVWXYZabcdefghi"

/-- Example Photoroom API key from the source's `Field(example=...)`. -/
def exampleKey : String := "photoroom_apikey_1234567890abcdef"

/-- Environment with both required secrets set and every other field at its
declared default. -/
def goodInput : SettingsInput :=
  { TELEGRAM_BOT_TOKEN := some exampleToken, PHOTOROOM_API_KEY := some exampleKey }

/-- Environment with host `localhost` and port 9000. -/
def devInput : SettingsInput :=
  { goodInput with HOST := "localhost", PORT := 9000 }

/-- Secret inputs violating a documented check of `validate_telegram_token`
or `validate_photoroom_key`: missing, empty, placeholder, or (for the token)
lacking `':'` or shorter than 30 characters. -/
def badSecret (i : SettingsInput) : Prop :=
  (match i.TELEGRAM_BOT_TOKEN with
   | none => True
   | some s => s = "" ∨ s = "your_telegram_bot_token_here" ∨
       s.toList.contains ':' = false ∨ s.length < 30) ∨
  (match i.PHOTOROOM_API_KEY with
   | none => True
   | some s => s = "" ∨ s = "your_photoroom_api_key_here")

/-- Production-like environment: external host and port, webhook URL set. -/
def prodInput : SettingsInput :=
  { goodInput with
    HOST := "0.0.0.0"
    PORT := 8443
    WEBHOOK_URL := some "https://example.com" }

/-! Inversion lemmas for construction. -/

/-- Characterization of a successful construction. -/
theorem construct_eq_ok_iff (i : SettingsInput) (s : Settings) :
    Settings.construct i = Except.ok s ↔
      SettingsInput.errors i = [] ∧ s = Settings.build i := by
  unfold Settings.construct
  split
  next h => simp [h, eq_comm]
  next h => simp [h]

/-- Construction succeeds exactly when no field validator produced an error. -/
theorem construct_isOk_iff (i : SettingsInput) :
    (Settings.construct i).isOk = true ↔ SettingsInput.errors i = [] := by
  unfold Settings.construct
  split
  next h => simp [h, Except.isOk, Except.toBool]
  next h => simp [h, Except.isOk, Except.toBool]

/-- Construction fails when some field validator produced an error. -/
theorem construct_isOk_false (i : SettingsInput) (h : SettingsInput.errors i ≠ []) :
    (Settings.construct i).isOk = false := by
  cases hb : (Settings.construct i).isOk
  · rfl
  · exact absurd ((construct_isOk_iff i).mp hb) h

/-- The error list is empty exactly when every field's contribution is empty. -/
theorem errors_nil_iff (i : SettingsInput) :
    SettingsInput.errors i = [] ↔
      i.tokenErrors = [] ∧ i.keyErrors = [] ∧
      rangeErrors "PORT" 1000 65535 i.PORT = [] ∧
      rangeErrors "MAX_IMAGE_SIZE_MB" 1 50 i.MAX_IMAGE_SIZE_MB = [] ∧
      rangeErrors "DEFAULT_IMAGE_QUALITY" 1 100 i.DEFAULT_IMAGE_QUALITY = [] ∧
      rangeErrors "REQUEST_TIMEOUT" 5 120 i.REQUEST_TIMEOUT = [] ∧
      rangeErrors "SESSION_TTL" 300 86400 i.SESSION_TTL = [] ∧
      rangeErrors "RATE_LIMIT_PER_MINUTE" 1 1000 i.RATE_LIMIT_PER_MINUTE = [] ∧
      i.processorErrors = [] ∧ i.logErrors = [] := by
  unfold SettingsInput.errors
  simp [List.append_eq_nil, and_assoc]

/-- Range-constraint errors are empty exactly on in-range values. -/
theorem rangeErrors_nil_iff (n : String) (lo hi v : Int) :
    rangeErrors n lo hi v = [] ↔ lo ≤ v ∧ v ≤ hi := by
  unfold rangeErrors
  split <;> simp_all

/-- An out-of-range value contributes exactly its tagged error. -/
theorem rangeErrors_out (n : String) (lo hi v : Int) (h : v < lo ∨ hi < v) :
    rangeErrors n lo hi v = [n ++ ": ensure value is in the declared range"] := by
  unfold rangeErrors
  rw [if_neg]
  omega

/-- The token field contributes no error exactly when its validator passes. -/
theorem tokenErrors_nil_iff (i : SettingsInput) :
    i.tokenErrors = [] ↔ (validate_telegram_token i.TELEGRAM_BOT_TOKEN).isOk = true := by
  unfold SettingsInput.tokenErrors
  cases h : validate_telegram_token i.TELEGRAM_BOT_TOKEN <;> simp [Except.isOk, Except.toBool]

/-- The API-key field contributes no error exactly when its validator passes. -/
theorem keyErrors_nil_iff (i : SettingsInput) :
    i.keyErrors = [] ↔ (validate_photoroom_key i.PHOTOROOM_API_KEY).isOk = true := by
  unfold SettingsInput.keyErrors
  cases h : validate_photoroom_key i.PHOTOROOM_API_KEY <;> simp [Except.isOk, Except.toBool]

/-- Characterization of a passing token validator in terms of the raw value. -/
theorem validate_token_isOk_iff (v : Option String) :
    (validate_telegram_token v).isOk = true ↔
      v.isSome = true ∧ v.getD "" ≠ "" ∧ v.getD "" ≠ "your_telegram_bot_token_here" ∧
        (v.getD "").toList.contains ':' = true ∧ 30 ≤ (v.getD "").length := by
  cases v with
  | none => simp [validate_telegram_token, Except.isOk, Except.toBool]
  | some s =>
    unfold validate_telegram_token
    simp only [Option.isSome_some, Option.getD_some, true_and]
    split_ifs with h1 h2
    · rcases h1 with rfl | rfl <;> simp [Except.isOk, Except.toBool]
    · simp only [Except.isOk, Except.toBool, Bool.false_eq_true, false_iff]
      rintro ⟨-, -, hc, hl⟩
      rcases h2 with h | h
      · rw [h] at hc; cases hc
      · exact absurd hl (by omega)
    · simp only [Except.isOk, Except.toBool, true_iff]
      push_neg at h1 h2
      refine ⟨h1.1, h1.2, ?_, h2.2⟩
      cases hc : (s.toList.contains ':')
      · exact absurd hc h2.1
      · rfl

/-- Characterization of a passing API-key validator in terms of the raw value. -/
theorem validate_key_isOk_iff (v : Option String) :
    (validate_photoroom_key v).isOk = true ↔
      v.isSome = true ∧ v.getD "" ≠ "" ∧ v.getD "" ≠ "your_photoroom_api_key_here" := by
  cases v with
  | none => simp [validate_photoroom_key, Except.isOk, Except.toBool]
  | some s =>
    unfold validate_photoroom_key
    simp only [Option.isSome_some, Option.getD_some, true_and]
    split_ifs with h1
    · rcases h1 with rfl | rfl <;> simp [Except.isOk, Except.toBool]
    · simp only [Except.isOk, Except.toBool, true_iff]
      push_neg at h1
      exact ⟨h1.1, h1.2⟩

/-- The processor field contributes no error exactly when the chosen
processor's toggle is on (and the value matches the declared pattern). -/
theorem processorErrors_nil_iff (i : SettingsInput) :
    i.processorErrors = [] ↔
      ((i.DEFAULT_PROCESSOR = "photoroom" ∧ i.ENABLE_PHOTOROOM = true) ∨
       (i.DEFAULT_PROCESSOR = "pillow" ∧ i.ENABLE_PILLOW = true)) := by
  unfold SettingsInput.processorErrors validate_default_processor
  split_ifs with h1 h2 h3 <;> simp_all
  tauto

/-- The log-level field contributes no error exactly when the value is one of
the five allowed literals. -/
theorem logErrors_nil_iff (i : SettingsInput) :
    i.logErrors = [] ↔
      (i.LOG_LEVEL = "DEBUG" ∨ i.LOG_LEVEL = "INFO" ∨ i.LOG_LEVEL = "WARNING" ∨
       i.LOG_LEVEL = "ERROR" ∨ i.LOG_LEVEL = "CRITICAL") := by
  unfold SettingsInput.logErrors
  split <;> simp_all

/-! Claim theorems. -/

/-- C1: constructing `Settings` with `DEFAULT_PROCESSOR = 'photoroom'` while
`ENABLE_PHOTOROOM` resolved to false, or `'pillow'` while `ENABLE_PILLOW`
resolved to false, fails; when the chosen default processor's toggle is true
and every other field is valid, construction succeeds. -/
theorem default_processor_gates_construction (i j : SettingsInput)
    (hbad : (i.DEFAULT_PROCESSOR = "photoroom" ∧ i.ENABLE_PHOTOROOM = false) ∨
            (i.DEFAULT_PROCESSOR = "pillow" ∧ i.ENABLE_PILLOW = false))
    (hsec : j.tokenErrors = [] ∧ j.keyErrors = [])
    (hranges : (1000 ≤ j.PORT ∧ j.PORT ≤ 65535) ∧
               (1 ≤ j.MAX_IMAGE_SIZE_MB ∧ j.MAX_IMAGE_SIZE_MB ≤ 50) ∧
               (1 ≤ j.DEFAULT_IMAGE_QUALITY ∧ j.DEFAULT_IMAGE_QUALITY ≤ 100) ∧
               (5 ≤ j.REQUEST_TIMEOUT ∧ j.REQUEST_TIMEOUT ≤ 120) ∧
               (300 ≤ j.SESSION_TTL ∧ j.SESSION_TTL ≤ 86400) ∧
               (1 ≤ j.RATE_LIMIT_PER_MINUTE ∧ j.RATE_LIMIT_PER_MINUTE ≤ 1000))
    (hlog : j.logErrors = [])
    (hgood : (j.DEFAULT_PROCESSOR = "photoroom" ∧ j.ENABLE_PHOTOROOM = true) ∨
             (j.DEFAULT_PROCESSOR = "pillow" ∧ j.ENABLE_PILLOW = true)) :
    (Settings.construct i).isOk = false ∧ (Settings.construct j).isOk = true := by
  constructor
  · refine construct_isOk_false i (fun hnil => ?_)
    have hp : i.processorErrors = [] := ((errors_nil_iff i).mp hnil).2.2.2.2.2.2.2.2.1
    have := (processorErrors_nil_iff i).mp hp
    rcases hbad with ⟨hv, ht⟩ | ⟨hv, ht⟩ <;>
      rcases this with ⟨hv', ht'⟩ | ⟨hv', ht'⟩ <;> simp_all
  · refine (construct_isOk_iff j).mpr ((errors_nil_iff j).mpr ?_)
    obtain ⟨r1, r2, r3, r4, r5, r6⟩ := hranges
    refine ⟨hsec.1, hsec.2, ?_, ?_, ?_, ?_, ?_, ?_, ?_, hlog⟩
    · exact (rangeErrors_nil_iff _ _ _ _).mpr r1
    · exact (rangeErrors_nil_iff _ _ _ _).mpr r2
    · exact (rangeErrors_nil_iff _ _ _ _).mpr r3
    · exact (rangeErrors_nil_iff _ _ _ _).mpr r4
    · exact (rangeErrors_nil_iff _ _ _ _).mpr r5
    · exact (rangeErrors_nil_iff _ _ _ _).mpr r6
    · exact (processorErrors_nil_iff j).mpr hgood

/-- Witness for C1 at concrete environments: `ENABLE_PHOTOROOM = false` with
the default processor `photoroom` fails, the all-defaults environment with
valid secrets succeeds. -/
theorem default_processor_gates_construction_witness :
    (Settings.construct { goodInput with ENABLE_PHOTOROOM := false }).isOk = false ∧
    (Settings.construct goodInput).isOk = true :=
  default_processor_gates_construction
    { goodInput with ENABLE_PHOTOROOM := false } goodInput
    (by decide) (by decide) (by decide) (by decide) (by decide)

/-- C2 counterexample: the claimed characterization of `is_development`
(host `127.0.0.1` or port 8000/8080, false for every other host/port
combination) fails on the code: the validly constructed instance with host
`localhost` and port 9000 satisfies neither disjunct yet `is_development`
is true, because the source also accepts host `localhost`. -/
theorem is_development_claim_false :
    ¬ (∀ (i : SettingsInput) (s : Settings), Settings.construct i = Except.ok s →
        (s.is_development = true ↔
          (s.HOST = "127.0.0.1" ∨ s.PORT = 8000 ∨ s.PORT = 8080))) := by
  intro h
  have h2 := (h devInput (Settings.build devInput) (by rfl)).mp (by decide)
  exact absurd h2 (by decide)

/-- C2 (amended): for every validly constructed `Settings`, `is_development`
is true exactly when the host is `127.0.0.1` or `localhost`, or the port is
8000 or 8080. -/
theorem is_development_characterization (i : SettingsInput) (s : Settings)
    (_h : Settings.construct i = Except.ok s) :
    s.is_development = true ↔
      (s.HOST = "127.0.0.1" ∨ s.HOST = "localhost" ∨ s.PORT = 8000 ∨ s.PORT = 8080) := by
  simp [Settings.is_development, or_assoc]

/-- Witness for the amended C2 at the `localhost`/9000 environment. -/
theorem is_development_characterization_witness :
    (Settings.build devInput).is_development = true ↔
      ((Settings.build devInput).HOST = "127.0.0.1" ∨
       (Settings.build devInput).HOST = "localhost" ∨
       (Settings.build devInput).PORT = 8000 ∨ (Settings.build devInput).PORT = 8080) :=
  is_development_characterization devInput (Settings.build devInput) (by rfl)

/-- C3: a provided webhook URL starting with the placeholder
`https://yourdomain` is normalized to `none` in the constructed instance,
while any other provided webhook URL is preserved unchanged. -/
theorem webhook_url_normalization (i j : SettingsInput) (s t : Settings) (u v : String)
    (hi : Settings.construct i = Except.ok s) (hu : i.WEBHOOK_URL = some u)
    (hup : strStartsWith u "https://yourdomain" = true)
    (hj : Settings.construct j = Except.ok t) (hv : j.WEBHOOK_URL = some v)
    (hvp : strStartsWith v "https://yourdomain" = false) :
    s.WEBHOOK_URL = none ∧ t.WEBHOOK_URL = some v := by
  obtain ⟨-, rfl⟩ := (construct_eq_ok_iff i s).mp hi
  obtain ⟨-, rfl⟩ := (construct_eq_ok_iff j t).mp hj
  constructor
  · show validate_webhook_url i.WEBHOOK_URL = none
    rw [hu]
    unfold validate_webhook_url
    show (if u ≠ "" ∧ strStartsWith u "https://yourdomain" = true then none else some u) = none
    rw [if_pos]
    refine ⟨?_, hup⟩
    rintro rfl
    exact absurd hup (by decide)
  · show validate_webhook_url j.WEBHOOK_URL = some v
    rw [hv]
    unfold validate_webhook_url
    show (if v ≠ "" ∧ strStartsWith v "https://yourdomain" = true then none else some v) = some v
    rw [if_neg]
    rintro ⟨-, hc⟩
    rw [hvp] at hc
    cases hc

/-- Witness for C3: the placeholder URL `https://yourdomain.example` is
dropped, the URL `https://example.com` is kept. -/
theorem webhook_url_normalization_witness :
    (Settings.build { goodInput with WEBHOOK_URL := some "https://yourdomain.example" }).WEBHOOK_URL
        = none ∧
    (Settings.build { goodInput with WEBHOOK_URL := some "https://example.com" }).WEBHOOK_URL
        = some "https://example.com" :=
  webhook_url_normalization
    { goodInput with WEBHOOK_URL := some "https://yourdomain.example" }
    { goodInput with WEBHOOK_URL := some "https://example.com" }
    (Settings.build { goodInput with WEBHOOK_URL := some "https://yourdomain.example" })
    (Settings.build { goodInput with WEBHOOK_URL := some "https://example.com" })
    "https://yourdomain.example" "https://example.com"
    (by rfl) (by rfl) (by decide) (by rfl) (by rfl) (by decide)

/-- A bad token value makes its validator fail. -/
theorem validate_token_fails (v : Option String)
    (h : match v with
         | none => True
         | some s => s = "" ∨ s = "your_telegram_bot_token_here" ∨
             s.toList.contains ':' = false ∨ s.length < 30) :
    (validate_telegram_token v).isOk = false := by
  cases v with
  | none => rfl
  | some s =>
    show (if s = "" ∨ s = "your_telegram_bot_token_here" then
            (Except.error "TELEGRAM_BOT_TOKEN не настроен. Проверьте .env файл" :
              Except String String)
          else if s.toList.contains ':' = false ∨ s.length < 30 then
            Except.error "Неверный формат TELEGRAM_BOT_TOKEN"
          else Except.ok s).isOk = false
    split_ifs with h1 h2
    · rfl
    · rfl
    · exfalso
      rcases h with h | h | h | h
      · exact h1 (Or.inl h)
      · exact h1 (Or.inr h)
      · exact h2 (Or.inl h)
      · exact h2 (Or.inr h)

/-- A bad API-key value makes its validator fail. -/
theorem validate_key_fails (v : Option String)
    (h : match v with
         | none => True
         | some s => s = "" ∨ s = "your_photoroom_api_key_here") :
    (validate_photoroom_key v).isOk = false := by
  cases v with
  | none => rfl
  | some s =>
    show (if s = "" ∨ s = "your_photoroom_api_key_here" then
            (Except.error "PHOTOROOM_API_KEY не настроен. Проверьте .env файл" :
              Except String String)
          else Except.ok s).isOk = false
    split_ifs with h1
    · rfl
    · exact absurd h h1

/-- C4: construction fails whenever the bot token is missing, empty, equal to
its placeholder, lacks `':'`, or is shorter than 30 characters, and whenever
the Photoroom API key is missing, empty, or equal to its placeholder,
regardless of the other fields; on every successful construction both secrets
are present and well-formed. -/
theorem required_secrets_validation (i j : SettingsInput) (t : Settings)
    (hbad : badSecret i) (hok : Settings.construct j = Except.ok t) :
    (Settings.construct i).isOk = false ∧
    (t.TELEGRAM_BOT_TOKEN ≠ "" ∧ t.TELEGRAM_BOT_TOKEN ≠ "your_telegram_bot_token_here" ∧
     t.TELEGRAM_BOT_TOKEN.toList.contains ':' = true ∧ 30 ≤ t.TELEGRAM_BOT_TOKEN.length ∧
     t.PHOTOROOM_API_KEY ≠ "" ∧ t.PHOTOROOM_API_KEY ≠ "your_photoroom_api_key_here") := by
  constructor
  · refine construct_isOk_false i (fun hnil => ?_)
    obtain ⟨htok, hkey, -⟩ := (errors_nil_iff i).mp hnil
    rcases hbad with hb | hb
    · have := validate_token_fails i.TELEGRAM_BOT_TOKEN hb
      rw [(tokenErrors_nil_iff i).mp htok] at this
      cases this
    · have := validate_key_fails i.PHOTOROOM_API_KEY hb
      rw [(keyErrors_nil_iff i).mp hkey] at this
      cases this
  · obtain ⟨herr, rfl⟩ := (construct_eq_ok_iff j t).mp hok
    obtain ⟨htok, hkey, -⟩ := (errors_nil_iff j).mp herr
    obtain ⟨-, t1, t2, t3, t4⟩ :=
      (validate_token_isOk_iff j.TELEGRAM_BOT_TOKEN).mp ((tokenErrors_nil_iff j).mp htok)
    obtain ⟨-, k1, k2⟩ :=
      (validate_key_isOk_iff j.PHOTOROOM_API_KEY).mp ((keyErrors_nil_iff j).mp hkey)
    exact ⟨t1, t2, t3, t4, k1, k2⟩

/-- Witness for C4: a short colon-free token fails even with a valid key and
defaults elsewhere; the good environment yields well-formed secrets. -/
theorem required_secrets_validation_witness :
    (Settings.construct { goodInput with TELEGRAM_BOT_TOKEN := some "short" }).isOk = false ∧
    ((Settings.build goodInput).TELEGRAM_BOT_TOKEN ≠ "" ∧
     (Settings.build goodInput).TELEGRAM_BOT_TOKEN ≠ "your_telegram_bot_token_here" ∧
     (Settings.build goodInput).TELEGRAM_BOT_TOKEN.toList.contains ':' = true ∧
     30 ≤ (Settings.build goodInput).TELEGRAM_BOT_TOKEN.length ∧
     (Settings.build goodInput).PHOTOROOM_API_KEY ≠ "" ∧
     (Settings.build goodInput).PHOTOROOM_API_KEY ≠ "your_photoroom_api_key_here") :=
  required_secrets_validation { goodInput with TELEGRAM_BOT_TOKEN := some "short" }
    goodInput (Settings.build goodInput)
    (Or.inl (Or.inr (Or.inr (Or.inr (by decide))))) (by rfl)

/-- C5: each numeric field declares a closed range (PORT [1000, 65535],
MAX_IMAGE_SIZE_MB [1, 50], DEFAULT_IMAGE_QUALITY [1, 100], REQUEST_TIMEOUT
[5, 120], SESSION_TTL [300, 86400], RATE_LIMIT_PER_MINUTE [1, 1000]); a value
below the minimum or above the maximum makes construction fail with an error
identifying that field, and in-range values (with every other field valid)
are accepted and round-tripped exactly. -/
theorem numeric_range_validation
    (i1 i2 i3 i4 i5 i6 j : SettingsInput)
    (h1 : i1.PORT < 1000 ∨ 65535 < i1.PORT)
    (h2 : i2.MAX_IMAGE_SIZE_MB < 1 ∨ 50 < i2.MAX_IMAGE_SIZE_MB)
    (h3 : i3.DEFAULT_IMAGE_QUALITY < 1 ∨ 100 < i3.DEFAULT_IMAGE_QUALITY)
    (h4 : i4.REQUEST_TIMEOUT < 5 ∨ 120 < i4.REQUEST_TIMEOUT)
    (h5 : i5.SESSION_TTL < 300 ∨ 86400 < i5.SESSION_TTL)
    (h6 : i6.RATE_LIMIT_PER_MINUTE < 1 ∨ 1000 < i6.RATE_LIMIT_PER_MINUTE)
    (hsec : j.tokenErrors = [] ∧ j.keyErrors = [])
    (hproc : j.processorErrors = []) (hlog : j.logErrors = [])
    (hranges : (1000 ≤ j.PORT ∧ j.PORT ≤ 65535) ∧
               (1 ≤ j.MAX_IMAGE_SIZE_MB ∧ j.MAX_IMAGE_SIZE_MB ≤ 50) ∧
               (1 ≤ j.DEFAULT_IMAGE_QUALITY ∧ j.DEFAULT_IMAGE_QUALITY ≤ 100) ∧
               (5 ≤ j.REQUEST_TIMEOUT ∧ j.REQUEST_TIMEOUT ≤ 120) ∧
               (300 ≤ j.SESSION_TTL ∧ j.SESSION_TTL ≤ 86400) ∧
               (1 ≤ j.RATE_LIMIT_PER_MINUTE ∧ j.RATE_LIMIT_PER_MINUTE ≤ 1000)) :
    ((Settings.construct i1).isOk = false ∧
      "PORT: ensure value is in the declared range" ∈ SettingsInput.errors i1) ∧
    ((Settings.construct i2).isOk = false ∧
      "MAX_IMAGE_SIZE_MB: ensure value is in the declared range" ∈ SettingsInput.errors i2) ∧
    ((Settings.construct i3).isOk = false ∧
      "DEFAULT_IMAGE_QUALITY: ensure value is in the declared range" ∈ SettingsInput.errors i3) ∧
    ((Settings.construct i4).isOk = false ∧
      "REQUEST_TIMEOUT: ensure value is in the declared range" ∈ SettingsInput.errors i4) ∧
    ((Settings.construct i5).isOk = false ∧
      "SESSION_TTL: ensure value is in the declared range" ∈ SettingsInput.errors i5) ∧
    ((Settings.construct i6).isOk = false ∧
      "RATE_LIMIT_PER_MINUTE: ensure value is in the declared range" ∈ SettingsInput.errors i6) ∧
    (Settings.construct j = Except.ok (Settings.build j) ∧
      (Settings.build j).PORT = j.PORT ∧
      (Settings.build j).MAX_IMAGE_SIZE_MB = j.MAX_IMAGE_SIZE_MB ∧
      (Settings.build j).DEFAULT_IMAGE_QUALITY = j.DEFAULT_IMAGE_QUALITY ∧
      (Settings.build j).REQUEST_TIMEOUT = j.REQUEST_TIMEOUT ∧
      (Settings.build j).SESSION_TTL = j.SESSION_TTL ∧
      (Settings.build j).RATE_LIMIT_PER_MINUTE = j.RATE_LIMIT_PER_MINUTE) := by
  have out : ∀ (k : SettingsInput) (n : String),
      (n ++ ": ensure value is in the declared range") ∈ SettingsInput.errors k →
      (Settings.construct k).isOk = false ∧
        (n ++ ": ensure value is in the declared range") ∈ SettingsInput.errors k :=
    fun k n hm => ⟨construct_isOk_false k (List.ne_nil_of_mem hm), hm⟩
  refine ⟨out i1 "PORT" ?_, out i2 "MAX_IMAGE_SIZE_MB" ?_,
    out i3 "DEFAULT_IMAGE_QUALITY" ?_, out i4 "REQUEST_TIMEOUT" ?_,
    out i5 "SESSION_TTL" ?_, out i6 "RATE_LIMIT_PER_MINUTE" ?_, ?_, ?_⟩
  · simp [SettingsInput.errors, rangeErrors_out _ 1000 65535 _ h1]
  · simp [SettingsInput.errors, rangeErrors_out _ 1 50 _ h2]
  · simp [SettingsInput.errors, rangeErrors_out _ 1 100 _ h3]
  · simp [SettingsInput.errors, rangeErrors_out _ 5 120 _ h4]
  · simp [SettingsInput.errors, rangeErrors_out _ 300 86400 _ h5]
  · simp [SettingsInput.errors, rangeErrors_out _ 1 1000 _ h6]
  · obtain ⟨r1, r2, r3, r4, r5, r6⟩ := hranges
    refine (construct_eq_ok_iff j (Settings.build j)).mpr ⟨(errors_nil_iff j).mpr
      ⟨hsec.1, hsec.2, ?_, ?_, ?_, ?_, ?_, ?_, hproc, hlog⟩, rfl⟩ <;>
      exact (rangeErrors_nil_iff _ _ _ _).mpr (by assumption)
  · exact ⟨rfl, rfl, rfl, rfl, rfl, rfl⟩

/-- Witness for C5: each of the six fields set one past a range bound fails
with an error naming that field; the all-defaults good environment is
accepted with its numeric values round-tripped. -/
theorem numeric_range_validation_witness :
    ((Settings.construct { goodInput with PORT := 999 }).isOk = false ∧
      "PORT: ensure value is in the declared range"
        ∈ SettingsInput.errors { goodInput with PORT := 999 }) ∧
    ((Settings.construct { goodInput with MAX_IMAGE_SIZE_MB := 0 }).isOk = false ∧
      "MAX_IMAGE_SIZE_MB: ensure value is in the declared range"
        ∈ SettingsInput.errors { goodInput with MAX_IMAGE_SIZE_MB := 0 }) ∧
    ((Settings.construct { goodInput with DEFAULT_IMAGE_QUALITY := 101 }).isOk = false ∧
      "DEFAULT_IMAGE_QUALITY: ensure value is in the declared range"
        ∈ SettingsInput.errors { goodInput with DEFAULT_IMAGE_QUALITY := 101 }) ∧
    ((Settings.construct { goodInput with REQUEST_TIMEOUT := 4 }).isOk = false ∧
      "REQUEST_TIMEOUT: ensure value is in the declared range"
        ∈ SettingsInput.errors { goodInput with REQUEST_TIMEOUT := 4 }) ∧
    ((Settings.construct { goodInput with SESSION_TTL := 86401 }).isOk = false ∧
      "SESSION_TTL: ensure value is in the declared range"
        ∈ SettingsInput.errors { goodInput with SESSION_TTL := 86401 }) ∧
    ((Settings.construct { goodInput with RATE_LIMIT_PER_MINUTE := 1001 }).isOk = false ∧
      "RATE_LIMIT_PER_MINUTE: ensure value is in the declared range"
        ∈ SettingsInput.errors { goodInput with RATE_LIMIT_PER_MINUTE := 1001 }) ∧
    (Settings.construct goodInput = Except.ok (Settings.build goodInput) ∧
      (Settings.build goodInput).PORT = goodInput.PORT ∧
      (Settings.build goodInput).MAX_IMAGE_SIZE_MB = goodInput.MAX_IMAGE_SIZE_MB ∧
      (Settings.build goodInput).DEFAULT_IMAGE_QUALITY = goodInput.DEFAULT_IMAGE_QUALITY ∧
      (Settings.build goodInput).REQUEST_TIMEOUT = goodInput.REQUEST_TIMEOUT ∧
      (Settings.build goodInput).SESSION_TTL = goodInput.SESSION_TTL ∧
      (Settings.build goodInput).RATE_LIMIT_PER_MINUTE = goodInput.RATE_LIMIT_PER_MINUTE) :=
  numeric_range_validation
    { goodInput with PORT := 999 } { goodInput with MAX_IMAGE_SIZE_MB := 0 }
    { goodInput with DEFAULT_IMAGE_QUALITY := 101 } { goodInput with REQUEST_TIMEOUT := 4 }
    { goodInput with SESSION_TTL := 86401 } { goodInput with RATE_LIMIT_PER_MINUTE := 1001 }
    goodInput
    (by decide) (by decide) (by decide) (by decide) (by decide) (by decide)
    (by decide) (by decide) (by decide) (by decide)

/-- C6: while an instance is cached, `get_settings` returns that same
instance (for any current environment) without reconstruction, and
`reload_settings` discards the cached instance, so its result is a full
fresh construction from the then-current environment — a changed
environment value is reflected in the returned instance. -/
theorem settings_cached_and_reload (c : Option Settings) (env env2 : SettingsInput)
    (s : Settings) (h : c = some s) :
    get_settings c env = (Except.ok s, some s) ∧
    reload_settings c env2 = get_settings none env2 ∧
    (reload_settings c env2).fst = Settings.construct env2 := by
  subst h
  refine ⟨rfl, rfl, ?_⟩
  show (get_settings none env2).fst = Settings.construct env2
  unfold get_settings
  cases hc : Settings.construct env2 <;> simp

/-- Witness for C6: with the all-defaults instance cached, access under an
environment with a changed port still returns the cached instance, and after
a reload the construction from the changed environment (port 8081) is
returned. -/
theorem settings_cached_and_reload_witness :
    get_settings (some (Settings.build goodInput)) { goodInput with PORT := 8081 }
        = (Except.ok (Settings.build goodInput), some (Settings.build goodInput)) ∧
    reload_settings (some (Settings.build goodInput)) { goodInput with PORT := 8081 }
        = get_settings none { goodInput with PORT := 8081 } ∧
    (reload_settings (some (Settings.build goodInput)) { goodInput with PORT := 8081 }).fst
        = Settings.construct { goodInput with PORT := 8081 } :=
  settings_cached_and_reload (some (Settings.build goodInput))
    { goodInput with PORT := 8081 } { goodInput with PORT := 8081 }
    (Settings.build goodInput) rfl

/-- C7: when construction fails inside `get_settings`, the failure is
re-raised to the caller unchanged (no fallback instance) and the cache stays
unset, so a subsequent accessor call performs a full fresh construction. -/
theorem construction_failure_propagates (env env2 : SettingsInput) (e : List String)
    (h : Settings.construct env = Except.error e) :
    get_settings none env = (Except.error e, none) ∧
    (get_settings (get_settings none env).snd env2).fst = Settings.construct env2 := by
  have h1 : get_settings none env = (Except.error e, none) := by
    unfold get_settings
    rw [h]
  refine ⟨h1, ?_⟩
  rw [h1]
  show (get_settings none env2).fst = Settings.construct env2
  unfold get_settings
  cases hc : Settings.construct env2 <;> simp

/-- Witness for C7: with the bot token absent (API key set), construction
fails with that error, `get_settings` surfaces it and leaves the cache empty,
and the next call re-runs construction (here on the good environment). -/
theorem construction_failure_propagates_witness :
    get_settings none { PHOTOROOM_API_KEY := some exampleKey }
        = (Except.error ["TELEGRAM_BOT_TOKEN: field required"], none) ∧
    (get_settings (get_settings none { PHOTOROOM_API_KEY := some exampleKey }).snd
        goodInput).fst = Settings.construct goodInput :=
  construction_failure_propagates { PHOTOROOM_API_KEY := some exampleKey } goodInput
    ["TELEGRAM_BOT_TOKEN: field required"] (by rfl)

/-- C8: on every validly constructed instance the derived
`max_image_size_bytes` equals `MAX_IMAGE_SIZE_MB × 1048576`, and the MB value
lies in the declared range [1, 50]. -/
theorem max_image_size_bytes_spec (i : SettingsInput) (s : Settings)
    (h : Settings.construct i = Except.ok s) :
    s.max_image_size_bytes = s.MAX_IMAGE_SIZE_MB * 1048576 ∧
    1 ≤ s.MAX_IMAGE_SIZE_MB ∧ s.MAX_IMAGE_SIZE_MB ≤ 50 := by
  obtain ⟨herr, rfl⟩ := (construct_eq_ok_iff i s).mp h
  have hr := ((errors_nil_iff i).mp herr).2.2.2.1
  have := (rangeErrors_nil_iff "MAX_IMAGE_SIZE_MB" 1 50 i.MAX_IMAGE_SIZE_MB).mp hr
  refine ⟨?_, this.1, this.2⟩
  show i.MAX_IMAGE_SIZE_MB * 1024 * 1024 = i.MAX_IMAGE_SIZE_MB * 1048576
  ring

/-- Witness for C8 at the default environment: 10 MB maps to 10485760 bytes. -/
theorem max_image_size_bytes_spec_witness :
    (Settings.build goodInput).max_image_size_bytes
        = (Settings.build goodInput).MAX_IMAGE_SIZE_MB * 1048576 ∧
    1 ≤ (Settings.build goodInput).MAX_IMAGE_SIZE_MB ∧
    (Settings.build goodInput).MAX_IMAGE_SIZE_MB ≤ 50 :=
  max_image_size_bytes_spec goodInput (Settings.build goodInput) (by rfl)

/-- C9: `get_test_settings` always performs a fresh construction from the
test environment source (`.env.test`): its result equals that construction,
is independent of whatever is cached, and the process-wide cache is left
exactly as it was. -/
theorem test_settings_bypass_cache (c c2 : Option Settings) (envTest : SettingsInput) :
    (get_test_settings c envTest).fst = Settings.construct envTest ∧
    (get_test_settings c envTest).fst = (get_test_settings c2 envTest).fst ∧
    (get_test_settings c envTest).snd = c :=
  ⟨rfl, rfl, rfl⟩

/-- C10: on every validly constructed instance the derived predicate
`webhook_enabled` coincides with `is_production`: the extra "webhook URL
present" conjunct is redundant, because `is_production` already requires a
present webhook URL. -/
theorem webhook_enabled_eq_is_production (i : SettingsInput) (s : Settings)
    (_h : Settings.construct i = Except.ok s) :
    s.webhook_enabled = s.is_production := by
  unfold Settings.webhook_enabled Settings.is_production
  cases hw : s.WEBHOOK_URL <;> simp

/-- Witness for C10 at a production-like environment (external host and
port, webhook URL set). -/
theorem webhook_enabled_eq_is_production_witness :
    (Settings.build prodInput).webhook_enabled = (Settings.build prodInput).is_production :=
  webhook_enabled_eq_is_production prodInput (Settings.build prodInput) (by rfl)

end PhotoBot
